import Mathlib

/-!
Shallow embedding of the jogging-tracker repository's computation core
(`src/utils/locationUtils.ts`), its two persistence variants
(mobile SQLite `JoggingService` and web Dexie `JoggingService`), and the
route renderers (`JoggingDetailScreen.tsx` / `JoggingDetailPage.tsx`),
together with theorems settling the frozen claims.

JavaScript numbers are embedded as `ℝ` where transcendental math occurs
(latitude/longitude and the haversine distance) and as `ℚ` where only
ordered-field arithmetic occurs (speeds, timestamps, durations), keeping
those definitions executable.  `NaN` is modelled only where the source
branches on it (`formatDuration`), via the `JSNumber` type.
-/

namespace RebuiltNexus

/-- Embedding of JavaScript `Math.atan2(y, x)`: the argument of the complex
number `x + y·i`.  (`Complex.arg` agrees with `atan2` on all inputs,
including `atan2 0 0 = 0`.) -/
noncomputable def atan2 (y x : ℝ) : ℝ := Complex.arg ⟨x, y⟩

/-- Function `calculateDistance` from `src/src/utils/locationUtils.ts`
(lines 5–24): haversine distance in meters between two latitude/longitude
pairs, with Earth radius `R = 6371e3`. -/
noncomputable def calculateDistance (lat1 lon1 lat2 lon2 : ℝ) : ℝ :=
  let R : ℝ := 6371e3
  let phi1 := lat1 * Real.pi / 180
  let phi2 := lat2 * Real.pi / 180
  let dPhi := (lat2 - lat1) * Real.pi / 180
  let dLam := (lon2 - lon1) * Real.pi / 180
  let a := Real.sin (dPhi / 2) * Real.sin (dPhi / 2) +
    Real.cos phi1 * Real.cos phi2 * Real.sin (dLam / 2) * Real.sin (dLam / 2)
  let c := 2 * atan2 (Real.sqrt a) (Real.sqrt (1 - a))
  R * c

/-- The haversine formula exactly as written in the specification (§4.1):
`a = sin²(Δφ/2) + cos(φ1)·cos(φ2)·sin²(Δλ/2)`, `c = 2·atan2(√a, √(1-a))`,
`distance = R·c` with `R = 6 371 000` meters. -/
noncomputable def spec_haversineDistance (lat1 lon1 lat2 lon2 : ℝ) : ℝ :=
  let R : ℝ := 6371000
  let phi1 := lat1 * Real.pi / 180
  let phi2 := lat2 * Real.pi / 180
  let dPhi := (lat2 - lat1) * Real.pi / 180
  let dLam := (lon2 - lon1) * Real.pi / 180
  let a := Real.sin (dPhi / 2) ^ 2 + Real.cos phi1 * Real.cos phi2 * Real.sin (dLam / 2) ^ 2
  let c := 2 * atan2 (Real.sqrt a) (Real.sqrt (1 - a))
  R * c

/-- Structure `LocationPoint` from `src/types` as used throughout the
source: a GPS sample with optional database identifiers and an optional
speed.  Coordinates are embedded as `ℝ` (they feed the transcendental
haversine computation); timestamps and speeds as `ℚ` (only ordered-field
arithmetic). -/
structure LocationPoint where
  id : Option ℤ := none
  sessionId : Option ℤ := none
  latitude : ℝ
  longitude : ℝ
  timestamp : ℚ
  speed : Option ℚ := none

/-- Embedding of the JavaScript expression `v || d` for an optional number
`v`: unset (`undefined`/`null`) and the falsy number `0` give `d`,
any other number gives itself. -/
def jsOr (v : Option ℚ) (d : ℚ) : ℚ :=
  match v with
  | none => d
  | some s => if s = 0 then d else s

/-- Function `calculateTotalDistance` from `src/src/utils/locationUtils.ts`
(lines 27–44): returns 0 for routes shorter than 2, else accumulates
`calculateDistance` over the consecutive pairs, left to right. -/
noncomputable def calculateTotalDistance (locations : List LocationPoint) : ℝ :=
  if locations.length < 2 then 0
  else (locations.zip locations.tail).foldl
    (fun acc pr =>
      acc + calculateDistance pr.1.latitude pr.1.longitude pr.2.latitude pr.2.longitude) 0

/-- Function `calculateAverageSpeed` from `src/src/utils/locationUtils.ts`
(lines 47–55): 0 for routes shorter than 2; otherwise filters to points
whose `speed` is present (`!== undefined && !== null`), returns 0 when no
point has speed, else `reduce`-sums `point.speed || 0` and divides by the
number of speed-carrying points. -/
def calculateAverageSpeed (locations : List LocationPoint) : ℚ :=
  if locations.length < 2 then 0
  else
    let speedPoints := locations.filter fun p => p.speed.isSome
    if speedPoints.length = 0 then 0
    else (speedPoints.foldl (fun sum p => sum + jsOr p.speed 0) 0) / (speedPoints.length : ℚ)

/-- Function `calculateMaxSpeed` from `src/src/utils/locationUtils.ts`
(lines 58–65): 0 on the empty route; otherwise filters to speed-carrying
points, returns 0 when there are none, else `Math.max` over their
`point.speed || 0` values. -/
def calculateMaxSpeed (locations : List LocationPoint) : ℚ :=
  if locations.length = 0 then 0
  else
    let speedPoints := locations.filter fun p => p.speed.isSome
    if speedPoints.length = 0 then 0
    else
      match speedPoints.map (fun p => jsOr p.speed 0) with
      | [] => 0
      | s :: rest => rest.foldl max s

/-- The example route of the specification: speeds 10, absent, 20. -/
def avgExample : List LocationPoint :=
  [{ latitude := 0, longitude := 0, timestamp := 1, speed := some 10 },
   { latitude := 0, longitude := 0, timestamp := 2 },
   { latitude := 0, longitude := 0, timestamp := 3, speed := some 20 }]

/-- The single-sample route with speed 5 from the specification. -/
def maxExample : List LocationPoint :=
  [{ latitude := 0, longitude := 0, timestamp := 1, speed := some 5 }]

/-- Function `getActivityType` from `src/src/utils/locationUtils.ts`
(lines 94–98): speed below 1.5 m/s is walking, below 3 m/s jogging,
otherwise running. -/
def getActivityType (speed : ℚ) : String :=
  if speed < 1.5 then "walking"
  else if speed < 3 then "jogging"
  else "running"

/-- Function `getSpeedColor` from `src/src/utils/locationUtils.ts`
(lines 101–107): the five speed bands and their hex display colors. -/
def getSpeedColor (speed : ℚ) : String :=
  if speed < 1 then "#3498db"
  else if speed < 2 then "#2ecc71"
  else if speed < 3 then "#f1c40f"
  else if speed < 4 then "#e67e22"
  else "#e74c3c"

/-- One rendered polyline segment: the two endpoints and the stroke color,
as produced by `renderRouteSegments` in `JoggingDetailScreen.tsx` (mobile)
and `JoggingDetailPage.tsx` (web). -/
structure RouteSegment where
  startLat : ℝ
  startLon : ℝ
  endLat : ℝ
  endLon : ℝ
  color : String

/-- Function `renderRouteSegments` from
`src/src/screens/JoggingDetailScreen.tsx` (lines 83–100) and
`src/src/pages/JoggingDetailPage.tsx` (lines 74–91) — the two are
identical in geometry and coloring: nothing for routes shorter than 2,
else one segment per consecutive pair `(locations[i], locations[i+1])`
colored by `getSpeedColor(nextPoint.speed || 0)`. -/
def renderRouteSegments (locations : List LocationPoint) : List RouteSegment :=
  if locations.length < 2 then []
  else (locations.dropLast.zip locations.tail).map fun pr =>
    { startLat := pr.1.latitude, startLon := pr.1.longitude,
      endLat := pr.2.latitude, endLon := pr.2.longitude,
      color := getSpeedColor (jsOr pr.2.speed 0) }

/-- A two-sample route with destination speed 5 m/s. -/
def segExample : List LocationPoint :=
  [{ latitude := 0, longitude := 0, timestamp := 1, speed := some 3 },
   { latitude := 1, longitude := 1, timestamp := 2, speed := some 5 }]

/-- A two-sample route whose destination sample has no speed. -/
def blueExample : List LocationPoint :=
  [{ latitude := 0, longitude := 0, timestamp := 1, speed := some 3 },
   { latitude := 1, longitude := 1, timestamp := 2 }]

/-- A JavaScript number as consumed by `formatDuration`: either `NaN`
(the only float-specific value the source branches on, via `isNaN`) or an
ordinary finite number, embedded as `ℚ`. -/
inductive JSNumber where
  | nan : JSNumber
  | num : ℚ → JSNumber

/-- Embedding of `s.padStart(2, '0')`: prepend zeros until length 2. -/
def padStart2 (s : String) : String :=
  if s.length ≥ 2 then s
  else String.mk (List.replicate (2 - s.length) '0') ++ s

/-- Truncation toward zero, as JavaScript division-based remainder uses. -/
def jsTrunc (q : ℚ) : ℤ :=
  if 0 ≤ q then ⌊q⌋ else ⌈q⌉

/-- Embedding of the JavaScript remainder `a % b`:
`a - b * trunc(a / b)` (sign follows the dividend). -/
def jsMod (a b : ℚ) : ℚ := a - b * jsTrunc (a / b)

/-- Function `formatDuration` from `src/src/utils/locationUtils.ts`
(lines 74–85): `"00:00"` on `NaN`; otherwise hours = `⌊s/3600⌋`,
minutes = `⌊(s % 3600)/60⌋`, secs = `⌊s % 60⌋`, rendered as zero-padded
`HH:MM:SS` when hours > 0 and `MM:SS` otherwise. -/
def formatDuration : JSNumber → String
  | JSNumber.nan => "00:00"
  | JSNumber.num seconds =>
    let hours : ℤ := ⌊seconds / 3600⌋
    let minutes : ℤ := ⌊jsMod seconds 3600 / 60⌋
    let secs : ℤ := ⌊jsMod seconds 60⌋
    if hours > 0 then
      padStart2 (toString hours) ++ ":" ++ padStart2 (toString minutes) ++ ":" ++
        padStart2 (toString secs)
    else padStart2 (toString minutes) ++ ":" ++ padStart2 (toString secs)

/-- One row of the mobile variant's `location_points` SQLite table
(`src/unnamed/part_000`): the INSERT always supplies a numeric value for
the `speed` column (`point.speed || 0`), so the column is non-optional. -/
structure LocationRow where
  id : ℕ
  session_id : ℤ
  latitude : ℝ
  longitude : ℝ
  timestamp : ℚ
  speed : ℚ

/-- Method `JoggingService.addLocationPoint` of the mobile (SQLite)
variant (`src/unnamed/part_000`, lines 27–43): INSERTs
`(session_id, latitude, longitude, timestamp, point.speed || 0)`. -/
def mobileAddLocationPoint (rows : List LocationRow) (sessionId : ℤ)
    (point : LocationPoint) : List LocationRow :=
  rows ++ [{ id := rows.length, session_id := sessionId, latitude := point.latitude,
             longitude := point.longitude, timestamp := point.timestamp,
             speed := jsOr point.speed 0 }]

/-- Method `JoggingService.getSessionLocations` of the mobile (SQLite)
variant (`src/unnamed/part_000`, lines 106–134): SELECTs the rows of the
session ordered by timestamp and rebuilds `LocationPoint`s, with
`speed := row.speed` — a number, hence always present. -/
def mobileGetSessionLocations (rows : List LocationRow) (sessionId : ℤ) :
    List LocationPoint :=
  ((rows.filter fun r => r.session_id == sessionId).mergeSort
      (fun a b => decide (a.timestamp ≤ b.timestamp))).map fun r =>
    { id := some (r.id : ℤ), sessionId := some r.session_id, latitude := r.latitude,
      longitude := r.longitude, timestamp := r.timestamp, speed := some r.speed }

/-- Method `JoggingService.addLocationPoint` of the web (Dexie) variant
(`src/src/services/JoggingService.ts`, lines 15–19): stores
`{ ...point, sessionId }` — the point unchanged except for `sessionId`. -/
def webAddLocationPoint (store : List LocationPoint) (sessionId : ℤ)
    (point : LocationPoint) : List LocationPoint :=
  store ++ [{ point with sessionId := some sessionId }]

/-- The speeds-10/absent/20 route used to show the round-trip effect on
the average speed. -/
def c9Route : List LocationPoint :=
  [{ latitude := 0, longitude := 0, timestamp := 1, speed := some 10 },
   { latitude := 0, longitude := 0, timestamp := 2 },
   { latitude := 0, longitude := 0, timestamp := 3, speed := some 20 }]

theorem atan2_nonneg_of_nonneg (y x : ℝ) (hy : 0 ≤ y) : 0 ≤ atan2 y x := by
  unfold atan2
  exact Complex.arg_nonneg_iff.mpr hy

theorem atan2_zero_one : atan2 0 1 = 0 := by
  unfold atan2
  have h : (⟨1, 0⟩ : ℂ) = 1 := by
    apply Complex.ext <;> simp
  rw [h, Complex.arg_one]

theorem jsOr_some (s : ℚ) : jsOr (some s) 0 = s := by
  by_cases h : s = 0 <;> simp [jsOr, h]

theorem foldl_add_map_sum {α M : Type} [AddCommMonoid M] (f : α → M) :
    ∀ (l : List α) (init : M),
      l.foldl (fun acc x => acc + f x) init = init + (l.map f).sum := by
  intro l
  induction l with
  | nil => simp
  | cons h t ih =>
    intro init
    simp [List.foldl_cons, ih, add_assoc]

theorem filter_speeds_map (locs : List LocationPoint) :
    (locs.filter fun p => p.speed.isSome).map (fun p => jsOr p.speed 0) =
      locs.filterMap fun p => p.speed := by
  induction locs with
  | nil => simp
  | cons p t ih =>
    cases hs : p.speed with
    | none => simp [List.filter_cons, List.filterMap_cons, hs, ih]
    | some s => simp [List.filter_cons, List.filterMap_cons, hs, ih, jsOr_some]

theorem filter_speeds_length (locs : List LocationPoint) :
    (locs.filter fun p => p.speed.isSome).length =
      (locs.filterMap fun p => p.speed).length := by
  rw [← filter_speeds_map locs, List.length_map]

theorem foldl_max_spec {α : Type} [LinearOrder α] :
    ∀ (l : List α) (s : α), l.foldl max s ∈ s :: l ∧ ∀ x ∈ s :: l, x ≤ l.foldl max s := by
  intro l
  induction l with
  | nil => simp
  | cons h t ih =>
    intro s
    obtain ⟨ihmem, ihle⟩ := ih (max s h)
    have hfold : (h :: t).foldl max s = t.foldl max (max s h) := by
      simp [List.foldl_cons]
    constructor
    · rw [hfold]
      rcases List.mem_cons.mp ihmem with hc | hc
      · rcases max_choice s h with hm | hm
        · exact List.mem_cons.mpr (Or.inl (hc.trans hm))
        · exact List.mem_cons.mpr (Or.inr (List.mem_cons.mpr (Or.inl (hc.trans hm))))
      · exact List.mem_cons.mpr (Or.inr (List.mem_cons.mpr (Or.inr hc)))
    · intro x hx
      rw [hfold]
      rcases List.mem_cons.mp hx with rfl | hx2
      · exact le_trans (le_max_left x h) (ihle _ (List.mem_cons_self _ _))
      · rcases List.mem_cons.mp hx2 with rfl | hx3
        · exact le_trans (le_max_right s x) (ihle _ (List.mem_cons_self _ _))
        · exact ihle x (List.mem_cons.mpr (Or.inr hx3))

theorem renderRouteSegments_color_get (locs : List LocationPoint) (i : ℕ)
    (hseg : i < (renderRouteSegments locs).length) (h1 : i + 1 < locs.length) :
    ((renderRouteSegments locs).get ⟨i, hseg⟩).color =
      getSpeedColor (jsOr (locs.get ⟨i + 1, h1⟩).speed 0) := by
  have h2 : ¬ locs.length < 2 := by omega
  simp only [List.get_eq_getElem]
  simp only [renderRouteSegments, if_neg h2] at hseg ⊢
  simp [List.getElem_map, List.getElem_zip, List.getElem_tail]

/-- C1: `calculateDistance` returns exactly the haversine value `R·c`
of the specification (with `R = 6 371 000 = 6371e3` meters), and this value
is non-negative for every input (finiteness is inherent in the real-number
embedding: every `ℝ` value is finite). -/
theorem calculateDistance_eq_spec_and_nonneg (lat1 lon1 lat2 lon2 : ℝ) :
    calculateDistance lat1 lon1 lat2 lon2 = spec_haversineDistance lat1 lon1 lat2 lon2 ∧
    0 ≤ calculateDistance lat1 lon1 lat2 lon2 := by
  constructor
  · unfold calculateDistance spec_haversineDistance
    norm_num [pow_two, mul_assoc]
  · unfold calculateDistance
    have h := atan2_nonneg_of_nonneg
      (Real.sqrt (Real.sin ((lat2 - lat1) * Real.pi / 180 / 2) *
          Real.sin ((lat2 - lat1) * Real.pi / 180 / 2) +
        Real.cos (lat1 * Real.pi / 180) * Real.cos (lat2 * Real.pi / 180) *
          Real.sin ((lon2 - lon1) * Real.pi / 180 / 2) *
          Real.sin ((lon2 - lon1) * Real.pi / 180 / 2)))
      (Real.sqrt (1 - (Real.sin ((lat2 - lat1) * Real.pi / 180 / 2) *
          Real.sin ((lat2 - lat1) * Real.pi / 180 / 2) +
        Real.cos (lat1 * Real.pi / 180) * Real.cos (lat2 * Real.pi / 180) *
          Real.sin ((lon2 - lon1) * Real.pi / 180 / 2) *
          Real.sin ((lon2 - lon1) * Real.pi / 180 / 2))))
      (Real.sqrt_nonneg _)
    positivity

/-- C2: `calculateTotalDistance` equals the sum of `calculateDistance`
over every consecutive pair in insertion order, is 0 on routes of length
0 or 1, and is additive along a three-point path. -/
theorem calculateTotalDistance_spec :
    (∀ locs : List LocationPoint, calculateTotalDistance locs =
      ((locs.zip locs.tail).map (fun pr =>
        calculateDistance pr.1.latitude pr.1.longitude pr.2.latitude pr.2.longitude)).sum) ∧
    calculateTotalDistance [] = 0 ∧
    (∀ p : LocationPoint, calculateTotalDistance [p] = 0) ∧
    (∀ a b c : LocationPoint, calculateTotalDistance [a, b, c] =
      calculateDistance a.latitude a.longitude b.latitude b.longitude +
      calculateDistance b.latitude b.longitude c.latitude c.longitude) := by
  refine ⟨?_, ?_, ?_, ?_⟩
  · intro locs
    match locs with
    | [] => simp [calculateTotalDistance]
    | [p] => simp [calculateTotalDistance]
    | p :: q :: t =>
      rw [calculateTotalDistance, if_neg (by simp)]
      rw [foldl_add_map_sum]
      simp
  · simp [calculateTotalDistance]
  · intro p
    simp [calculateTotalDistance]
  · intro a b c
    rw [calculateTotalDistance, if_neg (by simp)]
    simp [List.zip, List.zipWith]

/-- C3: on a route with at least 2 samples of which at least one has
a present speed, `calculateAverageSpeed` is the arithmetic mean of exactly
the present speed values; it is 0 on routes shorter than 2 samples and on
routes with no speed-carrying sample. -/
theorem calculateAverageSpeed_spec (locs : List LocationPoint) :
    (2 ≤ locs.length → locs.filterMap (fun p => p.speed) ≠ [] →
      calculateAverageSpeed locs =
        (locs.filterMap fun p => p.speed).sum /
          ((locs.filterMap fun p => p.speed).length : ℚ)) ∧
    (locs.length < 2 → calculateAverageSpeed locs = 0) ∧
    (locs.filterMap (fun p => p.speed) = [] → calculateAverageSpeed locs = 0) := by
  refine ⟨?_, ?_, ?_⟩
  · intro h2 hne
    rw [calculateAverageSpeed, if_neg (by omega)]
    have hlen : (locs.filter fun p => p.speed.isSome).length ≠ 0 := by
      rw [filter_speeds_length locs]
      simpa [List.length_eq_zero] using hne
    rw [if_neg hlen]
    have hfold : (locs.filter fun p => p.speed.isSome).foldl
        (fun sum p => sum + jsOr p.speed 0) 0 =
        (locs.filterMap fun p => p.speed).sum := by
      rw [foldl_add_map_sum, filter_speeds_map locs, zero_add]
    rw [hfold, filter_speeds_length locs]
  · intro h2
    rw [calculateAverageSpeed, if_pos h2]
  · intro hempty
    rw [calculateAverageSpeed]
    by_cases h2 : locs.length < 2
    · rw [if_pos h2]
    · rw [if_neg h2, if_pos]
      rw [filter_speeds_length locs, hempty]
      rfl

theorem calculateAverageSpeed_spec_witness :
    calculateAverageSpeed avgExample = 15 := by
  have h := (calculateAverageSpeed_spec avgExample).1 (by simp [avgExample])
    (by simp [avgExample])
  rw [h]
  simp [avgExample, List.filterMap_cons]
  norm_num

/-- C4: on any route with at least one speed-carrying sample — single
sample routes included — `calculateMaxSpeed` is the maximum of the present
speed values (it is one of them and bounds them all); it is 0 on the empty
route and on routes with no speed-carrying sample. -/
theorem calculateMaxSpeed_spec (locs : List LocationPoint) :
    (locs.filterMap (fun p => p.speed) ≠ [] →
      calculateMaxSpeed locs ∈ locs.filterMap (fun p => p.speed) ∧
      ∀ s ∈ locs.filterMap (fun p => p.speed), s ≤ calculateMaxSpeed locs) ∧
    (locs = [] → calculateMaxSpeed locs = 0) ∧
    (locs.filterMap (fun p => p.speed) = [] → calculateMaxSpeed locs = 0) := by
  refine ⟨?_, ?_, ?_⟩
  · intro hne
    have hlocs : locs.length ≠ 0 := by
      intro h0
      rw [List.length_eq_zero] at h0
      simp [h0] at hne
    have hflen : (locs.filter fun p => p.speed.isSome).length ≠ 0 := by
      rw [filter_speeds_length locs]
      simpa [List.length_eq_zero] using hne
    rw [calculateMaxSpeed, if_neg hlocs, if_neg hflen]
    rcases hmap : (locs.filter fun p => p.speed.isSome).map (fun p => jsOr p.speed 0) with
      _ | ⟨s, rest⟩
    · rw [filter_speeds_map locs] at hmap
      exact absurd hmap hne
    · rw [filter_speeds_map locs] at hmap ⊢
      rw [hmap]
      exact foldl_max_spec rest s
  · intro h0
    rw [calculateMaxSpeed, if_pos (by simp [h0])]
  · intro hempty
    rw [calculateMaxSpeed]
    by_cases h0 : locs.length = 0
    · rw [if_pos h0]
    · rw [if_neg h0, if_pos]
      rw [filter_speeds_length locs, hempty]
      rfl

theorem calculateMaxSpeed_spec_witness :
    calculateMaxSpeed maxExample ∈ [(5 : ℚ)] ∧
    ∀ s ∈ [(5 : ℚ)], s ≤ calculateMaxSpeed maxExample := by
  have h := (calculateMaxSpeed_spec maxExample).1 (by simp [maxExample])
  simpa [maxExample, List.filterMap_cons] using h

/-- C5: `getSpeedColor` is total with bands blue `[0,1)`, green
`[1,2)`, yellow `[2,3)`, orange `[3,4)`, red `[4,∞)`; and the route
renderer colors the i-th segment by the destination sample
(`locations[i+1]`): the list of segment colors is exactly the
destination-speed colors of the route's tail. -/
theorem getSpeedColor_spec (s : ℚ) (locs : List LocationPoint) :
    (s < 1 → getSpeedColor s = "#3498db") ∧
    (1 ≤ s → s < 2 → getSpeedColor s = "#2ecc71") ∧
    (2 ≤ s → s < 3 → getSpeedColor s = "#f1c40f") ∧
    (3 ≤ s → s < 4 → getSpeedColor s = "#e67e22") ∧
    (4 ≤ s → getSpeedColor s = "#e74c3c") ∧
    (2 ≤ locs.length →
      (renderRouteSegments locs).map RouteSegment.color =
        locs.tail.map fun q => getSpeedColor (jsOr q.speed 0)) := by
  refine ⟨?_, ?_, ?_, ?_, ?_, ?_⟩
  · intro h
    rw [getSpeedColor, if_pos h]
  · intro h1 h2
    rw [getSpeedColor, if_neg (not_lt.mpr h1), if_pos h2]
  · intro h1 h2
    rw [getSpeedColor, if_neg (by push_neg; linarith), if_neg (not_lt.mpr h1), if_pos h2]
  · intro h1 h2
    rw [getSpeedColor, if_neg (by push_neg; linarith), if_neg (by push_neg; linarith),
      if_neg (not_lt.mpr h1), if_pos h2]
  · intro h
    rw [getSpeedColor, if_neg (by push_neg; linarith), if_neg (by push_neg; linarith),
      if_neg (by push_neg; linarith), if_neg (not_lt.mpr h)]
  · intro hlen
    rw [renderRouteSegments, if_neg (by omega), List.map_map]
    have hcomp : (RouteSegment.color ∘ fun pr : LocationPoint × LocationPoint =>
        ({ startLat := pr.1.latitude, startLon := pr.1.longitude,
           endLat := pr.2.latitude, endLon := pr.2.longitude,
           color := getSpeedColor (jsOr pr.2.speed 0) } : RouteSegment)) =
        (fun q : LocationPoint => getSpeedColor (jsOr q.speed 0)) ∘ Prod.snd := rfl
    rw [hcomp, ← List.map_map, List.map_snd_zip]
    simp [List.length_tail, List.length_dropLast]

theorem getSpeedColor_spec_witness :
    getSpeedColor (1/2) = "#3498db" ∧
    (renderRouteSegments segExample).map RouteSegment.color =
      segExample.tail.map fun q => getSpeedColor (jsOr q.speed 0) :=
  ⟨(getSpeedColor_spec (1/2) segExample).1 (by norm_num),
   (getSpeedColor_spec (1/2) segExample).2.2.2.2.2 (by simp [segExample])⟩

/-- C6: `formatDuration` returns `"00:00"` on NaN; on any non-negative
number of seconds it renders the floor-division decomposition into hours,
minutes and seconds, zero-padded, as `HH:MM:SS` when hours > 0 and `MM:SS`
otherwise; in particular `formatDuration 65 = "01:05"` and
`formatDuration 3661 = "01:01:01"`. -/
theorem formatDuration_spec (q : ℚ) :
    formatDuration JSNumber.nan = "00:00" ∧
    (0 ≤ q → formatDuration (JSNumber.num q) =
      (if 0 < ⌊q / 3600⌋ then
        padStart2 (toString ⌊q / 3600⌋) ++ ":" ++
          padStart2 (toString (⌊q / 60⌋ - 60 * ⌊q / 3600⌋)) ++ ":" ++
          padStart2 (toString (⌊q⌋ - 60 * ⌊q / 60⌋))
      else
        padStart2 (toString (⌊q / 60⌋ - 60 * ⌊q / 3600⌋)) ++ ":" ++
          padStart2 (toString (⌊q⌋ - 60 * ⌊q / 60⌋)))) ∧
    formatDuration (JSNumber.num 65) = "01:05" ∧
    formatDuration (JSNumber.num 3661) = "01:01:01" := by
  have hdecomp : ∀ r : ℚ, 0 ≤ r → formatDuration (JSNumber.num r) =
      (if 0 < ⌊r / 3600⌋ then
        padStart2 (toString ⌊r / 3600⌋) ++ ":" ++
          padStart2 (toString (⌊r / 60⌋ - 60 * ⌊r / 3600⌋)) ++ ":" ++
          padStart2 (toString (⌊r⌋ - 60 * ⌊r / 60⌋))
      else
        padStart2 (toString (⌊r / 60⌋ - 60 * ⌊r / 3600⌋)) ++ ":" ++
          padStart2 (toString (⌊r⌋ - 60 * ⌊r / 60⌋))) := by
    intro r hr
    have h36 : jsTrunc (r / 3600) = ⌊r / 3600⌋ := by
      rw [jsTrunc, if_pos (div_nonneg hr (by norm_num))]
    have h60 : jsTrunc (r / 60) = ⌊r / 60⌋ := by
      rw [jsTrunc, if_pos (div_nonneg hr (by norm_num))]
    have hmin : ⌊jsMod r 3600 / 60⌋ = ⌊r / 60⌋ - 60 * ⌊r / 3600⌋ := by
      rw [jsMod, h36]
      have harg : (r - 3600 * (⌊r / 3600⌋ : ℚ)) / 60 =
          r / 60 - ((60 * ⌊r / 3600⌋ : ℤ) : ℚ) := by
        push_cast
        ring
      rw [harg, Int.floor_sub_int]
    have hsec : ⌊jsMod r 60⌋ = ⌊r⌋ - 60 * ⌊r / 60⌋ := by
      rw [jsMod, h60]
      have harg : r - 60 * (⌊r / 60⌋ : ℚ) = r - ((60 * ⌊r / 60⌋ : ℤ) : ℚ) := by
        push_cast
        ring
      rw [harg, Int.floor_sub_int]
    simp only [formatDuration, hmin, hsec, gt_iff_lt]
  refine ⟨rfl, hdecomp q, ?_, ?_⟩
  · rw [hdecomp 65 (by norm_num)]
    norm_num
    decide
  · rw [hdecomp 3661 (by norm_num)]
    norm_num
    decide

theorem formatDuration_spec_witness :
    formatDuration (JSNumber.num 65) =
      (if 0 < ⌊(65 : ℚ) / 3600⌋ then
        padStart2 (toString ⌊(65 : ℚ) / 3600⌋) ++ ":" ++
          padStart2 (toString (⌊(65 : ℚ) / 60⌋ - 60 * ⌊(65 : ℚ) / 3600⌋)) ++ ":" ++
          padStart2 (toString (⌊(65 : ℚ)⌋ - 60 * ⌊(65 : ℚ) / 60⌋))
      else
        padStart2 (toString (⌊(65 : ℚ) / 60⌋ - 60 * ⌊(65 : ℚ) / 3600⌋)) ++ ":" ++
          padStart2 (toString (⌊(65 : ℚ)⌋ - 60 * ⌊(65 : ℚ) / 60⌋))) :=
  (formatDuration_spec 65).2.1 (by norm_num)

/-- C7: `calculateDistance` satisfies the identity law
(`distanceMeters(p, p) = 0`) and is symmetric
(`distanceMeters(a, b) = distanceMeters(b, a)`). -/
theorem calculateDistance_identity_and_symm :
    (∀ lat lon : ℝ, calculateDistance lat lon lat lon = 0) ∧
    (∀ lat1 lon1 lat2 lon2 : ℝ,
      calculateDistance lat1 lon1 lat2 lon2 = calculateDistance lat2 lon2 lat1 lon1) := by
  constructor
  · intro lat lon
    simp [calculateDistance, atan2_zero_one]
  · intro lat1 lon1 lat2 lon2
    have key : Real.sin ((lat2 - lat1) * Real.pi / 180 / 2) *
          Real.sin ((lat2 - lat1) * Real.pi / 180 / 2) +
        Real.cos (lat1 * Real.pi / 180) * Real.cos (lat2 * Real.pi / 180) *
          Real.sin ((lon2 - lon1) * Real.pi / 180 / 2) *
          Real.sin ((lon2 - lon1) * Real.pi / 180 / 2) =
        Real.sin ((lat1 - lat2) * Real.pi / 180 / 2) *
          Real.sin ((lat1 - lat2) * Real.pi / 180 / 2) +
        Real.cos (lat2 * Real.pi / 180) * Real.cos (lat1 * Real.pi / 180) *
          Real.sin ((lon1 - lon2) * Real.pi / 180 / 2) *
          Real.sin ((lon1 - lon2) * Real.pi / 180 / 2) := by
      rw [show (lat1 - lat2) * Real.pi / 180 / 2 = -((lat2 - lat1) * Real.pi / 180 / 2) by ring,
        show (lon1 - lon2) * Real.pi / 180 / 2 = -((lon2 - lon1) * Real.pi / 180 / 2) by ring,
        Real.sin_neg, Real.sin_neg]
      ring
    simp only [calculateDistance]
    rw [key]

/-- C8: `getActivityType` is total and maps speed to `walking` below
1.5 m/s, `jogging` in [1.5, 3), and `running` at 3 m/s and above. -/
theorem getActivityType_spec (s : ℚ) :
    (s < 1.5 → getActivityType s = "walking") ∧
    (1.5 ≤ s → s < 3 → getActivityType s = "jogging") ∧
    (3 ≤ s → getActivityType s = "running") := by
  refine ⟨?_, ?_, ?_⟩
  · intro h
    rw [getActivityType, if_pos h]
  · intro h1 h2
    rw [getActivityType, if_neg (not_lt.mpr h1), if_pos h2]
  · intro h
    rw [getActivityType, if_neg (by push_neg; linarith), if_neg (not_lt.mpr h)]

theorem getActivityType_spec_witness :
    getActivityType 1 = "walking" ∧ getActivityType 2.9 = "jogging" ∧
    getActivityType 3.1 = "running" :=
  ⟨(getActivityType_spec 1).1 (by norm_num),
   (getActivityType_spec 2.9).2.1 (by norm_num) (by norm_num),
   (getActivityType_spec 3.1).2.2 (by norm_num)⟩

/-- C9: the mobile (SQLite) variant always stores a numeric speed
(`point.speed || 0`), so every point read back from it carries a present
speed, and an unset speed comes back as `some 0` after a round trip —
which changes `calculateAverageSpeed` over a restored route; the web
(Dexie) variant stores the point unchanged, preserving an unset speed. -/
theorem mobile_persistence_speed_spec (rows : List LocationRow) (sid : ℤ)
    (p : LocationPoint) :
    (∀ q ∈ mobileGetSessionLocations rows sid, q.speed.isSome) ∧
    (p.speed = none →
      mobileGetSessionLocations (mobileAddLocationPoint [] sid p) sid =
        [{ id := some 0, sessionId := some sid, latitude := p.latitude,
           longitude := p.longitude, timestamp := p.timestamp, speed := some 0 }]) ∧
    webAddLocationPoint [] sid p = [{ p with sessionId := some sid }] ∧
    ({ p with sessionId := some sid } : LocationPoint).speed = p.speed := by
  refine ⟨?_, ?_, ?_, rfl⟩
  · intro q hq
    rw [mobileGetSessionLocations] at hq
    obtain ⟨r, _, rfl⟩ := List.mem_map.mp hq
    rfl
  · intro hnone
    rw [mobileAddLocationPoint, mobileGetSessionLocations]
    simp [List.filter_cons, List.mergeSort, hnone, jsOr]
  · rfl

theorem mobile_persistence_speed_spec_witness :
    (∀ q ∈ mobileGetSessionLocations
        (c9Route.foldl (fun rows pt => mobileAddLocationPoint rows 1 pt) []) 1,
      q.speed.isSome) ∧
    calculateAverageSpeed c9Route = 15 ∧
    calculateAverageSpeed (mobileGetSessionLocations
      (c9Route.foldl (fun rows pt => mobileAddLocationPoint rows 1 pt) []) 1) = 10 := by
  refine ⟨(mobile_persistence_speed_spec
    (c9Route.foldl (fun rows pt => mobileAddLocationPoint rows 1 pt) []) 1
    { latitude := 0, longitude := 0, timestamp := 0 }).1, ?_, ?_⟩
  · simp [calculateAverageSpeed, c9Route, List.filter_cons, jsOr]
    norm_num
  · have hrows : c9Route.foldl (fun rows pt => mobileAddLocationPoint rows 1 pt) [] =
        [{ id := 0, session_id := 1, latitude := 0, longitude := 0, timestamp := 1,
           speed := 10 },
         { id := 1, session_id := 1, latitude := 0, longitude := 0, timestamp := 2,
           speed := 0 },
         { id := 2, session_id := 1, latitude := 0, longitude := 0, timestamp := 3,
           speed := 20 }] := by
      simp [c9Route, mobileAddLocationPoint, jsOr]
    rw [hrows, mobileGetSessionLocations]
    rw [List.mergeSort_of_sorted (by simp; norm_num)]
    simp [calculateAverageSpeed, List.filter_cons, jsOr]
    norm_num

/-- C10: in the route renderers, a segment whose destination sample has
unset (or zero) speed is colored blue (`#3498db`), and every consecutive
pair yields a colored segment: there are exactly `length - 1` segments. -/
theorem renderRouteSegments_missing_speed_spec (locs : List LocationPoint) (i : ℕ) :
    (2 ≤ locs.length → (renderRouteSegments locs).length = locs.length - 1) ∧
    (∀ (hseg : i < (renderRouteSegments locs).length) (h1 : i + 1 < locs.length),
      (locs.get ⟨i + 1, h1⟩).speed = none ∨ (locs.get ⟨i + 1, h1⟩).speed = some 0 →
      ((renderRouteSegments locs).get ⟨i, hseg⟩).color = "#3498db") := by
  constructor
  · intro hlen
    rw [renderRouteSegments, if_neg (by omega)]
    simp [List.length_zip, List.length_dropLast, List.length_tail]
  · intro hseg h1 hsp
    rw [renderRouteSegments_color_get locs i hseg h1]
    rcases hsp with h | h <;>
      simp only [List.get_eq_getElem] at h <;>
      norm_num [h, jsOr, getSpeedColor]

theorem renderRouteSegments_missing_speed_spec_witness :
    (renderRouteSegments blueExample).length = blueExample.length - 1 ∧
    ((renderRouteSegments blueExample)[0]?).map RouteSegment.color = some "#3498db" := by
  have hlen := (renderRouteSegments_missing_speed_spec blueExample 0).1 (by simp [blueExample])
  have hseg : 0 < (renderRouteSegments blueExample).length := by
    rw [hlen]
    simp [blueExample]
  have h1 : 0 + 1 < blueExample.length := by simp [blueExample]
  have hc := (renderRouteSegments_missing_speed_spec blueExample 0).2 hseg h1
    (Or.inl (by simp [blueExample]))
  refine ⟨hlen, ?_⟩
  rw [List.getElem?_eq_getElem hseg]
  simp only [List.get_eq_getElem] at hc
  simp [hc]

end RebuiltNexus
